import Mathlib

/-!
Verification of the todo-application backends against their written
specification.  Timestamps are embedded as integers (seconds); the
relational store is embedded as lists of records; request handlers become
pure functions from a database value and request data to a result paired
with the successor database value.
-/

namespace Face4Auth

/-- User row, following app/models/user.py (id embedded as Nat). -/
structure User where
  id : Nat
  email : String
  password_hash : String
  is_verified : Bool
  is_active : Bool
  failed_login_attempts : Nat
  locked_until : Option Int
  created_at : Int
  updated_at : Int
  last_login_at : Option Int
deriving DecidableEq

/-- Verification token row, following app/models/verification_token.py. -/
structure VerificationToken where
  id : Nat
  user_id : Nat
  token : String
  expires_at : Int
  verified_at : Option Int
  created_at : Int
deriving DecidableEq

/-- Audit log row, following app/models/auth_event.py (request metadata such
as ip and user agent is not security relevant here and is omitted). -/
structure AuthEvent where
  user_id : Option Nat
  event_type : String
  success : Bool
  failure_reason : Option String
deriving DecidableEq

/-- The relational store visible to the auth endpoints. -/
structure DB where
  users : List User
  tokens : List VerificationToken
  events : List AuthEvent
deriving DecidableEq

/-- Lookup of a user row by email (select User where email == data.email, first). -/
def findUser (db : DB) (email : String) : Option User :=
  db.users.find? (fun u => u.email == email)

/-- Lookup of a verification token row by its token string. -/
def findToken (db : DB) (tok : String) : Option VerificationToken :=
  db.tokens.find? (fun t => t.token == tok)

/-- Row update keyed on the primary key, the model of mutating a fetched ORM
object and committing. -/
def replaceUserById (users : List User) (u : User) : List User :=
  users.map (fun x => if x.id == u.id then u else x)

/-- Row update for token rows, keyed on the primary key. -/
def replaceTokenById (toks : List VerificationToken) (t : VerificationToken) :
    List VerificationToken :=
  toks.map (fun x => if x.id == t.id then t else x)

/-- Access token issued by create_access_token in app/core/security.py:
subject is the user id, expiry is the supplied delta added to now. -/
structure AccessToken where
  sub : Nat
  exp : Int
deriving DecidableEq

/-- Result of the login endpoint. -/
inductive LoginResult where
  | success (token : AccessToken) (token_type : String) (expires_in : Int)
      (user_id : Nat) (user_email : String)
  | error (status : Nat) (detail : String)
deriving DecidableEq

/-- Login endpoint, app/api/v1/auth.py lines 260 to 328, embedding the code
that actually executes: after the user lookup the handler unconditionally
takes the development-mode success path (the password check and lockout
logic further down the function sits after an unconditional return and never
runs). -/
def login (db : DB) (email _password : String) (now : Int) : LoginResult × DB :=
  match findUser db email with
  | none =>
      (.error 401 "User not found in database", db)
  | some user =>
      let user' : User :=
        { user with
            failed_login_attempts := 0
            locked_until := none
            last_login_at := some now
            updated_at := now }
      let tok : AccessToken := { sub := user.id, exp := now + 900 }
      let ev : AuthEvent :=
        { user_id := some user.id, event_type := "login", success := true,
          failure_reason := none }
      (.success tok "bearer" 900 user.id user.email,
       { db with users := replaceUserById db.users user', events := db.events ++ [ev] })

/-- Result of the verify-email endpoint. -/
inductive VerifyResult where
  | ok (message : String) (user_id : Nat)
  | error (status : Nat) (detail : String)
deriving DecidableEq

/-- Verify-email endpoint, app/api/v1/auth.py lines 114 to 191. -/
def verify_email (db : DB) (tok : String) (now : Int) : VerifyResult × DB :=
  match findToken db tok with
  | none =>
      (.error 400 "Invalid verification token", db)
  | some vt =>
      if vt.verified_at.isSome then
        (.error 400 "Verification token has already been used", db)
      else if vt.expires_at < now then
        (.error 400 "Verification token has expired. Please request a new one.", db)
      else
        match db.users.find? (fun u => u.id == vt.user_id) with
        | none => (.error 404 "User not found", db)
        | some user =>
            let user' : User := { user with is_verified := true, updated_at := now }
            let vt' : VerificationToken := { vt with verified_at := some now }
            let ev : AuthEvent :=
              { user_id := some user.id, event_type := "email_verification",
                success := true, failure_reason := none }
            (.ok "Email verified successfully. You can now login." user.id,
             { db with
                 users := replaceUserById db.users user'
                 tokens := replaceTokenById db.tokens vt'
                 events := db.events ++ [ev] })

/-- Result of the resend-verification endpoint. -/
inductive ResendResult where
  | ok (message : String)
  | error (status : Nat) (detail : String)
deriving DecidableEq

/-- The rate-limiter query of resend_verification: tokens of this user whose
created_at is strictly later than one hour before now. -/
def recentTokens (db : DB) (uid : Nat) (now : Int) : List VerificationToken :=
  db.tokens.filter (fun t => t.user_id == uid && now - 3600 < t.created_at)

/-- Resend-verification endpoint, app/api/v1/auth.py lines 194 to 257.  The
fresh token string and its row id are inputs (generate_verification_token and
the autoincrement key are external). -/
def resend_verification (db : DB) (email : String) (now : Int)
    (newTok : String) (newId : Nat) : ResendResult × DB :=
  match findUser db email with
  | none =>
      (.ok "If the email exists and is not verified, a new verification email has been sent.", db)
  | some user =>
      if user.is_verified then
        (.error 400 "Email is already verified", db)
      else if 3 ≤ (recentTokens db user.id now).length then
        (.error 429 "Too many verification emails requested. Please try again later.", db)
      else
        let vt : VerificationToken :=
          { id := newId, user_id := user.id, token := newTok,
            expires_at := now + 86400, verified_at := none, created_at := now }
        (.ok "A new verification email has been sent. Please check your inbox.",
         { db with tokens := db.tokens ++ [vt] })

end Face4Auth

namespace Face4Conv

/-- Message row, following app/models/message.py (role kept as its string
value, created_at as an integer timestamp). -/
structure Message where
  id : Nat
  user_id : String
  conversation_id : Nat
  role : String
  content : String
  created_at : Int
deriving DecidableEq

/-- Ordering used by the history query: order_by(Message.created_at.desc()). -/
def msgDesc : Message → Message → Prop := fun a b => b.created_at ≤ a.created_at

instance : DecidableRel msgDesc := fun a b =>
  inferInstanceAs (Decidable (b.created_at ≤ a.created_at))

/-- Filter of the history query: rows of this conversation and this user. -/
def convFilter (msgs : List Message) (cid : Nat) (uid : String) : List Message :=
  msgs.filter (fun m => m.conversation_id == cid && m.user_id == uid)

/-- ConversationService.load_history, app/services/conversation.py lines 34
to 61: select messages of the conversation and user, order newest first,
limit, then reverse into chronological order and project to role and
content pairs. -/
def load_history (msgs : List Message) (cid : Nat) (uid : String) (limit : Nat) :
    List (String × String) :=
  let page := (List.insertionSort msgDesc (convFilter msgs cid uid)).take limit
  (page.reverse).map (fun m => (m.role, m.content))

end Face4Conv

namespace Face2Tasks

/-- Task row, following face-2 app/models/task.py. -/
structure Task where
  id : Nat
  user_id : Nat
  title : String
  description : Option String
  status : String
  due_date : Option Int
  created_at : Int
  updated_at : Int
deriving DecidableEq

/-- The task table. -/
abbrev DB := List Task

/-- TaskUpdate schema, face-2 app/schemas/task.py lines 22 to 35.  The outer
Option is pydantic presence in the request body (exclude_unset); for nullable
columns the inner Option is the supplied value. -/
structure TaskUpdate where
  title : Option String
  description : Option (Option String)
  status : Option String
  due_date : Option (Option Int)
deriving DecidableEq

/-- The shared lookup of get, update and delete: select Task where id and
user_id both match, first row. -/
def lookup (db : DB) (task_id cur : Nat) : Option Task :=
  db.find? (fun t => t.id == task_id && t.user_id == cur)

/-- Result of the single-task GET endpoint. -/
inductive GetResult where
  | ok (t : Task)
  | notFound (status : Nat) (detail : String)
deriving DecidableEq

/-- Result of the PATCH endpoint. -/
inductive UpdateResult where
  | ok (t : Task)
  | notFound (status : Nat) (detail : String)
deriving DecidableEq

/-- Result of the DELETE endpoint. -/
inductive DeleteResult where
  | noContent (status : Nat)
  | notFound (status : Nat) (detail : String)
deriving DecidableEq

/-- get_task endpoint, face-2 app/api/v1/tasks.py lines 64 to 89. -/
def get_task (db : DB) (task_id cur : Nat) : GetResult :=
  match lookup db task_id cur with
  | none => .notFound 404 "Task not found"
  | some t => .ok t

/-- The setattr loop of update_task followed by the timestamp touch: each
field present in the request body overwrites the stored value, then
updated_at is set to now. -/
def applyUpdate (t : Task) (u : TaskUpdate) (now : Int) : Task :=
  let t1 := match u.title with | none => t | some v => { t with title := v }
  let t2 := match u.description with | none => t1 | some v => { t1 with description := v }
  let t3 := match u.status with | none => t2 | some v => { t2 with status := v }
  let t4 := match u.due_date with | none => t3 | some v => { t3 with due_date := v }
  { t4 with updated_at := now }

/-- update_task endpoint, face-2 app/api/v1/tasks.py lines 92 to 133. -/
def update_task (db : DB) (task_id cur : Nat) (u : TaskUpdate) (now : Int) :
    UpdateResult × DB :=
  match lookup db task_id cur with
  | none => (.notFound 404 "Task not found", db)
  | some t =>
      let t' := applyUpdate t u now
      (.ok t', db.map (fun x => if x.id == t.id then t' else x))

/-- delete_task endpoint, face-2 app/api/v1/tasks.py lines 136 to 166. -/
def delete_task (db : DB) (task_id cur : Nat) : DeleteResult × DB :=
  match lookup db task_id cur with
  | none => (.notFound 404 "Task not found", db)
  | some t => (.noContent 204, db.filter (fun x => x.id != t.id))

end Face2Tasks

namespace Face4Mcp

/-- Task row, following face-4 app/models/task.py. -/
structure Task where
  id : Nat
  user_id : String
  title : String
  description : Option String
  completed : Bool
  created_at : Int
deriving DecidableEq

/-- The task table of the chatbot variant. -/
abbrev DB := List Task

/-- Projection used by list_tasks when formatting the rows. -/
structure TaskView where
  id : Nat
  title : String
  description : Option String
  completed : Bool
  created_at : Int
deriving DecidableEq

/-- The dict every MCP tool returns.  The result field holds the literal
string success or error; keys a given tool never sets keep their defaults. -/
structure ToolResp where
  result : String
  error_message : Option String
  task_id : Option Nat := none
  title : Option String := none
  message : Option String := none
  tasks : List TaskView := []
  count : Option Nat := none
deriving DecidableEq

/-- Fault injected by the persistence layer: some e is an exception raised
inside the with-session block, caught by the except arm of the tool. -/
abbrev Fault := Option String

/-- add_task tool, app/mcp/tools/add_task.py lines 9 to 53.  The fresh row
id and the clock are inputs of the embedding. -/
def add_task (fault : Fault) (db : DB) (user_id title : String)
    (description : Option String) (newId : Nat) (now : Int) : ToolResp × DB :=
  match fault with
  | some e =>
      ({ result := "error", task_id := none, title := some title,
         error_message := some ("Failed to create task: " ++ e) }, db)
  | none =>
      let task : Task :=
        { id := newId, user_id := user_id, title := title,
          description := description, completed := false, created_at := now }
      ({ result := "success", task_id := some newId, title := some title,
         error_message := none }, db ++ [task])

/-- list_tasks tool, app/mcp/tools/list_tasks.py lines 8 to 60. -/
def list_tasks (fault : Fault) (db : DB) (user_id : String)
    (status : Option String) : ToolResp × DB :=
  match fault with
  | some e =>
      ({ result := "error", tasks := [], count := some 0,
         error_message := some ("Failed to list tasks: " ++ e) }, db)
  | none =>
      let base := db.filter (fun t => t.user_id == user_id)
      let q :=
        if status == some "pending" then base.filter (fun t => t.completed == false)
        else if status == some "completed" then base.filter (fun t => t.completed == true)
        else base
      let views := q.map (fun t =>
        TaskView.mk t.id t.title t.description t.completed t.created_at)
      ({ result := "success", tasks := views, count := some views.length,
         error_message := none }, db)

/-- complete_task tool, app/mcp/tools/complete_task.py lines 8 to 66. -/
def complete_task (fault : Fault) (db : DB) (user_id : String) (task_id : Nat) :
    ToolResp × DB :=
  match fault with
  | some e =>
      ({ result := "error", task_id := some task_id,
         error_message := some ("Failed to complete task: " ++ e) }, db)
  | none =>
      match db.find? (fun t => t.id == task_id && t.user_id == user_id) with
      | none =>
          ({ result := "error", task_id := some task_id,
             error_message := some "Task not found" }, db)
      | some t =>
          if t.completed then
            ({ result := "success", task_id := some t.id, title := some t.title,
               message := some "Task was already completed", error_message := none }, db)
          else
            ({ result := "success", task_id := some t.id, title := some t.title,
               error_message := none },
             db.map (fun x => if x.id == t.id then { x with completed := true } else x))

/-- update_task tool, app/mcp/tools/update_task.py lines 9 to 67.  The
due_date parameter is accepted but, as in the source, never applied. -/
def update_task (fault : Fault) (db : DB) (user_id : String) (task_id : Nat)
    (title : Option String) (description : Option String)
    (_due_date : Option Int) : ToolResp × DB :=
  match fault with
  | some e =>
      ({ result := "error", task_id := some task_id,
         error_message := some ("Failed to update task: " ++ e) }, db)
  | none =>
      match db.find? (fun t => t.id == task_id && t.user_id == user_id) with
      | none =>
          ({ result := "error", task_id := some task_id,
             error_message := some "Task not found" }, db)
      | some t =>
          let t1 := match title with | none => t | some v => { t with title := v }
          let t2 := match description with | none => t1 | some v => { t1 with description := v }
          ({ result := "success", task_id := some t2.id, title := some t2.title,
             error_message := none },
           db.map (fun x => if x.id == t.id then t2 else x))

/-- delete_task tool, app/mcp/tools/delete_task.py lines 8 to 57. -/
def delete_task (fault : Fault) (db : DB) (user_id : String) (task_id : Nat) :
    ToolResp × DB :=
  match fault with
  | some e =>
      ({ result := "error", task_id := some task_id,
         error_message := some ("Failed to delete task: " ++ e) }, db)
  | none =>
      match db.find? (fun t => t.id == task_id && t.user_id == user_id) with
      | none =>
          ({ result := "error", task_id := some task_id,
             error_message := some "Task not found" }, db)
      | some t =>
          ({ result := "success", task_id := some task_id, title := some t.title,
             error_message := none }, db.filter (fun x => x.id != t.id))

end Face4Mcp

namespace Face4Agent

open Face4Mcp

/-- One recognized tool invocation, the decoded form of an OpenAI tool_call
(function name plus JSON arguments); the unknown constructor covers any name
outside the dispatch chain. -/
inductive FnCall where
  | add (title : String) (description : Option String)
  | list (status : Option String)
  | complete (task_id : Nat)
  | update (task_id : Nat) (title : Option String) (description : Option String)
  | delete (task_id : Nat)
  | unknown (name : String)
deriving DecidableEq

/-- Function name string of a decoded tool call. -/
def fnName : FnCall → String
  | .add _ _ => "add_task"
  | .list _ => "list_tasks"
  | .complete _ => "complete_task"
  | .update _ _ _ => "update_task"
  | .delete _ => "delete_task"
  | .unknown n => n

/-- Model reply of the first chat.completions.create call: optional text
content plus the requested tool calls. -/
structure LLMTurn where
  content : Option String
  tool_calls : List FnCall
deriving DecidableEq

/-- Entry of the tool_calls_results list built by the dispatcher (the
parameters echo is presentation only and omitted). -/
structure ToolCallRec where
  tool : String
  result : String
  error_message : Option String
deriving DecidableEq

/-- The dict process_message returns. -/
structure AgentReply where
  response : String
  tool_calls : List ToolCallRec
deriving DecidableEq

/-- The function_name dispatch chain of process_message (todo_agent.py lines
199 to 218): every branch injects the server-side user_id and calls the
matching MCP tool; an unknown name becomes an error result without any tool
running. -/
def dispatchTool (fault : Fault) (db : DB) (user_id : String) (newId : Nat)
    (now : Int) : FnCall → ToolResp × DB × List String
  | .add title description =>
      let (r, db') := add_task fault db user_id title description newId now
      (r, db', ["add_task"])
  | .list status =>
      let (r, db') := list_tasks fault db user_id status
      (r, db', ["list_tasks"])
  | .complete task_id =>
      let (r, db') := complete_task fault db user_id task_id
      (r, db', ["complete_task"])
  | .update task_id title description =>
      let (r, db') := update_task fault db user_id task_id title description none
      (r, db', ["update_task"])
  | .delete task_id =>
      let (r, db') := delete_task fault db user_id task_id
      (r, db', ["delete_task"])
  | .unknown n =>
      ({ result := "error", error_message := some ("Unknown function: " ++ n) }, db, [])

/-- Loop over assistant tool calls, threading the store and collecting the
tool_calls_results entries together with the names of the tools that ran. -/
def runToolCalls (fault : Fault) (user_id : String) (newId : Nat) (now : Int) :
    List FnCall → DB → List ToolCallRec × DB × List String
  | [], db => ([], db, [])
  | fc :: rest, db =>
      let (resp, db', ran0) := dispatchTool fault db user_id newId now fc
      let rec0 : ToolCallRec :=
        { tool := fnName fc, result := resp.result, error_message := resp.error_message }
      let (recs, db'', ran) := runToolCalls fault user_id newId now rest db'
      (rec0 :: recs, db'', ran0 ++ ran)

/-- TodoAgent.process_message, app/agent/todo_agent.py lines 149 to 264.
The client field is none exactly when OPENAI_API_KEY is unset at
construction (lines 21 to 31); llm1 and llm2 stand for the two external
model calls, llmFault for an exception raised inside the try block.  The
third component of the result lists the names of the MCP tools that were
actually executed. -/
def process_message (client : Option String) (llm1 : LLMTurn) (llm2 : Option String)
    (llmFault : Option String) (fault : Fault) (newId : Nat) (now : Int)
    (db : DB) (user_id : String)
    (_message : String) (_history : List (String × String)) :
    AgentReply × DB × List String :=
  match client with
  | none =>
      ({ response := "Sorry, the AI chatbot is currently unavailable. The OpenAI API key is not configured. Please contact the administrator to set up the OPENAI_API_KEY environment variable.",
         tool_calls := [] }, db, [])
  | some _ =>
      match llmFault with
      | some e =>
          ({ response := "I encountered an error: " ++ e ++ ". Please try again.",
             tool_calls := [] }, db, [])
      | none =>
          match llm1.tool_calls with
          | [] =>
              ({ response := (llm1.content).getD "I\x27m here to help with your tasks!",
                 tool_calls := [] }, db, [])
          | fc :: rest =>
              let (recs, db', ran) := runToolCalls fault user_id newId now (fc :: rest) db
              ({ response := llm2.getD "I\x27m here to help with your tasks!",
                 tool_calls := recs }, db', ran)

end Face4Agent

namespace Samples

/-- Sample account with four prior failed attempts and an active lock. -/
def alice : Face4Auth.User :=
  { id := 1, email := "alice@example.com", password_hash := "bcrypt$correct-password-hash",
    is_verified := true, is_active := true, failed_login_attempts := 4,
    locked_until := some 2000, created_at := 0, updated_at := 0, last_login_at := none }

/-- Store holding only the sample account. -/
def authDb : Face4Auth.DB := { users := [alice], tokens := [], events := [] }

end Samples

/-- Claim C1: the claim states that five consecutive password mismatches set
locked_until to now plus fifteen minutes and that any login inside the lock
window fails with a locked response.  The executing code takes the
development-mode early return: at an account already on its fifth
consecutive mismatch and still inside the lock window, a login with a wrong
password succeeds and clears the lock, so the code contradicts the claim
(and its own dead lockout logic further down the handler). -/
theorem claim_C1_lockout_never_enforced :
    (Face4Auth.login Samples.authDb "alice@example.com" "definitely-wrong-password" 1000).1
      = Face4Auth.LoginResult.success { sub := 1, exp := 1900 } "bearer" 900 1 "alice@example.com"
    ∧ Face4Auth.findUser
        (Face4Auth.login Samples.authDb "alice@example.com" "definitely-wrong-password" 1000).2
        "alice@example.com"
      = some { Samples.alice with
               failed_login_attempts := 0
               locked_until := none
               last_login_at := some 1000
               updated_at := 1000 } :=
  ⟨rfl, rfl⟩

/-- Claim C2: the claim states that the failure response for an unknown email
equals the failure response for a known email with a wrong password.  In the
executing code the unknown email yields a 401 whose detail openly says the
user is absent, while a known email with a wrong password does not fail at
all (development-mode early return), so the two cases are trivially
distinguishable. -/
theorem claim_C2_enumeration_distinguishable :
    (Face4Auth.login Samples.authDb "unknown@example.com" "pw" 1000).1
      = Face4Auth.LoginResult.error 401 "User not found in database"
    ∧ (Face4Auth.login Samples.authDb "alice@example.com" "wrong-password" 1000).1
      = Face4Auth.LoginResult.success { sub := 1, exp := 1900 } "bearer" 900 1 "alice@example.com"
    ∧ Face4Auth.LoginResult.error 401 "User not found in database"
      ≠ (Face4Auth.login Samples.authDb "alice@example.com" "wrong-password" 1000).1 :=
  ⟨rfl, rfl, by decide⟩

/-- Claim C7: every successful login resets failed_login_attempts to zero,
clears locked_until, stamps last_login_at with the current time, and returns
a bearer response with token_type bearer, expires_in 900 and an access token
expiring 900 seconds after now, whatever the prior counter value was. -/
theorem claim_C7_successful_login_resets_and_issues_bearer
    (db : Face4Auth.DB) (email pwd : String) (now : Int) (u : Face4Auth.User)
    (h : Face4Auth.findUser db email = some u) :
    Face4Auth.login db email pwd now =
      (Face4Auth.LoginResult.success { sub := u.id, exp := now + 900 } "bearer" 900 u.id u.email,
       { db with
           users := Face4Auth.replaceUserById db.users
             { u with failed_login_attempts := 0, locked_until := none,
                      last_login_at := some now, updated_at := now }
           events := db.events ++
             [{ user_id := some u.id, event_type := "login", success := true,
                failure_reason := none }] }) := by
  unfold Face4Auth.login
  rw [h]

/-- Witness for claim C7 at the sample store. -/
theorem claim_C7_witness :
    Face4Auth.findUser Samples.authDb "alice@example.com" = some Samples.alice
    ∧ Face4Auth.login Samples.authDb "alice@example.com" "any" 1000 =
      (Face4Auth.LoginResult.success { sub := 1, exp := 1900 } "bearer" 900 1 "alice@example.com",
       { Samples.authDb with
           users := Face4Auth.replaceUserById Samples.authDb.users
             { Samples.alice with
               failed_login_attempts := 0
               locked_until := none
               last_login_at := some 1000
               updated_at := 1000 }
           events := Samples.authDb.events ++
             [{ user_id := some 1, event_type := "login", success := true,
                failure_reason := none }] }) := by
  have h : Face4Auth.findUser Samples.authDb "alice@example.com" = some Samples.alice := by decide
  refine ⟨h, ?_⟩
  have := claim_C7_successful_login_resets_and_issues_bearer
    Samples.authDb "alice@example.com" "any" 1000 Samples.alice h
  simpa using this

/-- Claim C9: with no API key configured the agent client is none and
process_message short-circuits on every input with the fixed unavailability
message, an empty tool_calls list, an untouched store and no executed tool. -/
theorem claim_C9_no_credential_short_circuit :
    ∀ llm1 llm2 llmFault fault newId now db uid msg hist,
      Face4Agent.process_message none llm1 llm2 llmFault fault newId now db uid msg hist
        = ({ response := "Sorry, the AI chatbot is currently unavailable. The OpenAI API key is not configured. Please contact the administrator to set up the OPENAI_API_KEY environment variable.",
             tool_calls := [] }, db, []) := by
  intro llm1 llm2 llmFault fault newId now db uid msg hist
  rfl

/-- Claim C10: each MCP tool is total at its interface: for every input,
including an injected persistence-layer exception, it returns a response
whose result field is the string success or the string error. -/
theorem claim_C10_mcp_tools_total :
    (∀ fault db uid title d nid now,
       (Face4Mcp.add_task fault db uid title d nid now).1.result = "success"
       ∨ (Face4Mcp.add_task fault db uid title d nid now).1.result = "error")
  ∧ (∀ fault db uid status,
       (Face4Mcp.list_tasks fault db uid status).1.result = "success"
       ∨ (Face4Mcp.list_tasks fault db uid status).1.result = "error")
  ∧ (∀ fault db uid tid,
       (Face4Mcp.complete_task fault db uid tid).1.result = "success"
       ∨ (Face4Mcp.complete_task fault db uid tid).1.result = "error")
  ∧ (∀ fault db uid tid title d dd,
       (Face4Mcp.update_task fault db uid tid title d dd).1.result = "success"
       ∨ (Face4Mcp.update_task fault db uid tid title d dd).1.result = "error")
  ∧ (∀ fault db uid tid,
       (Face4Mcp.delete_task fault db uid tid).1.result = "success"
       ∨ (Face4Mcp.delete_task fault db uid tid).1.result = "error") := by
  refine ⟨?_, ?_, ?_, ?_, ?_⟩
  · intro fault db uid title d nid now
    unfold Face4Mcp.add_task
    split
    · right; rfl
    · left; rfl
  · intro fault db uid status
    unfold Face4Mcp.list_tasks
    split
    · right; rfl
    · left; rfl
  · intro fault db uid tid
    unfold Face4Mcp.complete_task
    split
    · right; rfl
    · split
      · right; rfl
      · split
        · left; rfl
        · left; rfl
  · intro fault db uid tid title d dd
    unfold Face4Mcp.update_task
    split
    · right; rfl
    · split
      · right; rfl
      · left; rfl
  · intro fault db uid tid
    unfold Face4Mcp.delete_task
    split
    · right; rfl
    · split
      · right; rfl
      · left; rfl

/-- Tasks of any other owner are invisible: the shared lookup predicate of
get, update and delete in face-2 requires both the id and the owner to
match, so a non-owned id produces none. -/
theorem lookup_eq_none_of_not_owned (db : Face2Tasks.DB) (tid cur : Nat)
    (h : ∀ t ∈ db, t.id = tid → t.user_id ≠ cur) :
    Face2Tasks.lookup db tid cur = none := by
  rw [Face2Tasks.lookup, List.find?_eq_none]
  intro t ht
  simp only [Bool.and_eq_true, beq_iff_eq, not_and]
  intro h1 h2
  exact h t ht h1 h2

/-- Claim C4: for every owner identifier and task id, get, update and delete
on a task owned by a different user return the same not-found outcome as on
a nonexistent id and leave the store untouched, because ownership is part of
the lookup predicate. -/
theorem claim_C4_ownership_folded_into_lookup
    (db : Face2Tasks.DB) (tid cur : Nat) (u : Face2Tasks.TaskUpdate) (now : Int)
    (h : ∀ t ∈ db, t.id = tid → t.user_id ≠ cur) :
    Face2Tasks.get_task db tid cur = Face2Tasks.GetResult.notFound 404 "Task not found"
    ∧ Face2Tasks.update_task db tid cur u now
        = (Face2Tasks.UpdateResult.notFound 404 "Task not found", db)
    ∧ Face2Tasks.delete_task db tid cur
        = (Face2Tasks.DeleteResult.notFound 404 "Task not found", db)
    ∧ (∀ tid2, (∀ t ∈ db, t.id ≠ tid2) →
        Face2Tasks.get_task db tid2 cur = Face2Tasks.get_task db tid cur
        ∧ Face2Tasks.update_task db tid2 cur u now = Face2Tasks.update_task db tid cur u now
        ∧ Face2Tasks.delete_task db tid2 cur = Face2Tasks.delete_task db tid cur) := by
  have hn : Face2Tasks.lookup db tid cur = none := lookup_eq_none_of_not_owned db tid cur h
  have hget : Face2Tasks.get_task db tid cur = Face2Tasks.GetResult.notFound 404 "Task not found" := by
    unfold Face2Tasks.get_task
    rw [hn]
  have hupd : Face2Tasks.update_task db tid cur u now
      = (Face2Tasks.UpdateResult.notFound 404 "Task not found", db) := by
    unfold Face2Tasks.update_task
    rw [hn]
  have hdel : Face2Tasks.delete_task db tid cur
      = (Face2Tasks.DeleteResult.notFound 404 "Task not found", db) := by
    unfold Face2Tasks.delete_task
    rw [hn]
  refine ⟨hget, hupd, hdel, ?_⟩
  intro tid2 habsent
  have hn2 : Face2Tasks.lookup db tid2 cur = none := by
    apply lookup_eq_none_of_not_owned
    intro t ht h1
    exact absurd h1 (habsent t ht)
  constructor
  · rw [hget]
    unfold Face2Tasks.get_task
    rw [hn2]
  constructor
  · rw [hupd]
    unfold Face2Tasks.update_task
    rw [hn2]
  · rw [hdel]
    unfold Face2Tasks.delete_task
    rw [hn2]

/-- Witness for claim C4: one task owned by user 7; user 9 operating on its
id behaves exactly as on the unused id 99. -/
theorem claim_C4_witness :
    (∀ t ∈ ([{ id := 1, user_id := 7, title := "secret", description := none,
               status := "pending", due_date := none, created_at := 0,
               updated_at := 0 }] : Face2Tasks.DB), t.id = 1 → t.user_id ≠ 9)
    ∧ Face2Tasks.get_task
        [{ id := 1, user_id := 7, title := "secret", description := none,
           status := "pending", due_date := none, created_at := 0, updated_at := 0 }] 1 9
      = Face2Tasks.GetResult.notFound 404 "Task not found" := by
  constructor
  · decide
  · exact (claim_C4_ownership_folded_into_lookup _ 1 9 ⟨none, none, none, none⟩ 0 (by decide)).1

/-- Claim C8: updating an owned task changes exactly the supplied fields,
refreshes updated_at, and keeps every unsupplied field together with id,
user_id and created_at at their previous values. -/
theorem claim_C8_partial_update_frame
    (db : Face2Tasks.DB) (tid cur : Nat) (u : Face2Tasks.TaskUpdate) (now : Int)
    (t : Face2Tasks.Task) (h : Face2Tasks.lookup db tid cur = some t) :
    Face2Tasks.update_task db tid cur u now
      = (Face2Tasks.UpdateResult.ok (Face2Tasks.applyUpdate t u now),
         db.map (fun x => if x.id == t.id then Face2Tasks.applyUpdate t u now else x))
    ∧ (Face2Tasks.applyUpdate t u now).id = t.id
    ∧ (Face2Tasks.applyUpdate t u now).user_id = t.user_id
    ∧ (Face2Tasks.applyUpdate t u now).created_at = t.created_at
    ∧ (Face2Tasks.applyUpdate t u now).updated_at = now
    ∧ (u.title = none → (Face2Tasks.applyUpdate t u now).title = t.title)
    ∧ (∀ v, u.title = some v → (Face2Tasks.applyUpdate t u now).title = v)
    ∧ (u.description = none → (Face2Tasks.applyUpdate t u now).description = t.description)
    ∧ (∀ v, u.description = some v → (Face2Tasks.applyUpdate t u now).description = v)
    ∧ (u.status = none → (Face2Tasks.applyUpdate t u now).status = t.status)
    ∧ (∀ v, u.status = some v → (Face2Tasks.applyUpdate t u now).status = v)
    ∧ (u.due_date = none → (Face2Tasks.applyUpdate t u now).due_date = t.due_date)
    ∧ (∀ v, u.due_date = some v → (Face2Tasks.applyUpdate t u now).due_date = v) := by
  obtain ⟨ut, ud, us, udd⟩ := u
  refine ⟨?_, ?_⟩
  · unfold Face2Tasks.update_task
    rw [h]
  · cases ut <;> cases ud <;> cases us <;> cases udd <;>
      simp [Face2Tasks.applyUpdate]

/-- Witness for claim C8: supplying only a status change flips status,
refreshes updated_at and leaves every other field alone. -/
theorem claim_C8_witness :
    Face2Tasks.lookup
      [{ id := 1, user_id := 7, title := "milk", description := some "2l",
         status := "pending", due_date := some 9, created_at := 3, updated_at := 3 }] 1 7
      = some { id := 1, user_id := 7, title := "milk", description := some "2l",
               status := "pending", due_date := some 9, created_at := 3, updated_at := 3 }
    ∧ Face2Tasks.applyUpdate
        { id := 1, user_id := 7, title := "milk", description := some "2l",
          status := "pending", due_date := some 9, created_at := 3, updated_at := 3 }
        ⟨none, none, some "completed", none⟩ 5
      = { id := 1, user_id := 7, title := "milk", description := some "2l",
          status := "completed", due_date := some 9, created_at := 3, updated_at := 5 } := by
  have h := claim_C8_partial_update_frame
    [{ id := 1, user_id := 7, title := "milk", description := some "2l",
       status := "pending", due_date := some 9, created_at := 3, updated_at := 3 }]
    1 7 ⟨none, none, some "completed", none⟩ 5
    { id := 1, user_id := 7, title := "milk", description := some "2l",
      status := "pending", due_date := some 9, created_at := 3, updated_at := 3 }
    (by decide)
  exact ⟨by decide, by decide⟩

/-- Claim C6: resend-verification silently succeeds for an unknown email,
fails AlreadyVerified for a verified user, and when three distinct tokens of
the user were each created less than an hour before now, the next issuance
attempt fails with 429 and leaves the token table unchanged. -/
theorem claim_C6_resend_rate_limit
    (db : Face4Auth.DB) (email : String) (now : Int) (newTok : String) (newId : Nat) :
    (Face4Auth.findUser db email = none →
      Face4Auth.resend_verification db email now newTok newId =
        (Face4Auth.ResendResult.ok "If the email exists and is not verified, a new verification email has been sent.", db))
    ∧ (∀ u, Face4Auth.findUser db email = some u → u.is_verified = true →
        Face4Auth.resend_verification db email now newTok newId =
          (Face4Auth.ResendResult.error 400 "Email is already verified", db))
    ∧ (∀ u, Face4Auth.findUser db email = some u → u.is_verified = false →
        ∀ t1 t2 t3, t1 ∈ db.tokens → t2 ∈ db.tokens → t3 ∈ db.tokens →
          t1.id ≠ t2.id → t1.id ≠ t3.id → t2.id ≠ t3.id →
          t1.user_id = u.id → now - 3600 < t1.created_at →
          t2.user_id = u.id → now - 3600 < t2.created_at →
          t3.user_id = u.id → now - 3600 < t3.created_at →
          Face4Auth.resend_verification db email now newTok newId =
            (Face4Auth.ResendResult.error 429 "Too many verification emails requested. Please try again later.", db)) := by
  refine ⟨?_, ?_, ?_⟩
  · intro h
    unfold Face4Auth.resend_verification
    rw [h]
  · intro u hu hv
    unfold Face4Auth.resend_verification
    rw [hu]
    simp [hv]
  · intro u hu hv t1 t2 t3 ht1 ht2 ht3 h12 h13 h23 hu1 hc1 hu2 hc2 hu3 hc3
    have hmem1 : t1 ∈ Face4Auth.recentTokens db u.id now := by
      rw [Face4Auth.recentTokens]
      exact List.mem_filter.2 ⟨ht1, by simp [hu1, hc1]⟩
    have hmem2 : t2 ∈ Face4Auth.recentTokens db u.id now := by
      rw [Face4Auth.recentTokens]
      exact List.mem_filter.2 ⟨ht2, by simp [hu2, hc2]⟩
    have hmem3 : t3 ∈ Face4Auth.recentTokens db u.id now := by
      rw [Face4Auth.recentTokens]
      exact List.mem_filter.2 ⟨ht3, by simp [hu3, hc3]⟩
    have hne12 : t1 ≠ t2 := fun he => h12 (by rw [he])
    have hne13 : t1 ≠ t3 := fun he => h13 (by rw [he])
    have hne23 : t2 ≠ t3 := fun he => h23 (by rw [he])
    have hnd : ([t1, t2, t3] : List Face4Auth.VerificationToken).Nodup := by
      simp [List.nodup_cons, hne12, hne13, hne23]
    have hsub : ([t1, t2, t3] : List Face4Auth.VerificationToken)
        ⊆ Face4Auth.recentTokens db u.id now := by
      intro x hx
      simp only [List.mem_cons, List.mem_singleton, List.not_mem_nil, or_false] at hx
      rcases hx with h | h | h
      · exact h ▸ hmem1
      · exact h ▸ hmem2
      · exact h ▸ hmem3
    have hkey : 3 ≤ (Face4Auth.recentTokens db u.id now).length := by
      have := (hnd.subperm hsub).length_le
      simpa using this
    unfold Face4Auth.resend_verification
    rw [hu]
    simp [hv, hkey]

namespace Samples

/-- Empty auth store. -/
def emptyAuthDb : Face4Auth.DB := { users := [], tokens := [], events := [] }

/-- Verified sample account. -/
def bob : Face4Auth.User :=
  { id := 2, email := "bob@example.com", password_hash := "h2",
    is_verified := true, is_active := true, failed_login_attempts := 0,
    locked_until := none, created_at := 0, updated_at := 0, last_login_at := none }

/-- Store holding only the verified account. -/
def bobDb : Face4Auth.DB := { users := [bob], tokens := [], events := [] }

/-- Unverified sample account. -/
def carol : Face4Auth.User :=
  { id := 3, email := "carol@example.com", password_hash := "h3",
    is_verified := false, is_active := true, failed_login_attempts := 0,
    locked_until := none, created_at := 0, updated_at := 0, last_login_at := none }

/-- Token row builder for the rate-limit scenario. -/
def carolTok (i : Nat) (c : Int) : Face4Auth.VerificationToken :=
  { id := i, user_id := 3, token := "ct" ++ toString i, expires_at := c + 86400,
    verified_at := none, created_at := c }

/-- Store where carol already holds three tokens younger than one hour. -/
def carolDb : Face4Auth.DB :=
  { users := [carol], tokens := [carolTok 11 100, carolTok 12 200, carolTok 13 300],
    events := [] }

end Samples

/-- Witness for claim C6: the three branches at concrete stores. -/
theorem claim_C6_witness :
    Face4Auth.resend_verification Samples.emptyAuthDb "ghost@example.com" 1000 "t" 9
      = (Face4Auth.ResendResult.ok "If the email exists and is not verified, a new verification email has been sent.", Samples.emptyAuthDb)
    ∧ Face4Auth.resend_verification Samples.bobDb "bob@example.com" 1000 "t" 9
      = (Face4Auth.ResendResult.error 400 "Email is already verified", Samples.bobDb)
    ∧ Face4Auth.resend_verification Samples.carolDb "carol@example.com" 1000 "t" 9
      = (Face4Auth.ResendResult.error 429 "Too many verification emails requested. Please try again later.", Samples.carolDb) := by
  refine ⟨(claim_C6_resend_rate_limit Samples.emptyAuthDb "ghost@example.com" 1000 "t" 9).1 (by decide),
          (claim_C6_resend_rate_limit Samples.bobDb "bob@example.com" 1000 "t" 9).2.1
            Samples.bob (by decide) (by decide), ?_⟩
  exact (claim_C6_resend_rate_limit Samples.carolDb "carol@example.com" 1000 "t" 9).2.2
    Samples.carol (by decide) (by decide)
    (Samples.carolTok 11 100) (Samples.carolTok 12 200) (Samples.carolTok 13 300)
    (by decide) (by decide) (by decide)
    (by decide) (by decide) (by decide)
    (by decide) (by decide)
    (by decide) (by decide)
    (by decide) (by decide)

/-- Replacing, keyed on the primary key, the row that a token lookup found
leaves that row the first match for its token string, provided primary keys
are unique. -/
theorem find?_replaceTokenById
    {toks : List Face4Auth.VerificationToken} {vt : Face4Auth.VerificationToken}
    {tok : String} {vt' : Face4Auth.VerificationToken}
    (h : toks.find? (fun t => t.token == tok) = some vt)
    (hids : (toks.map (fun t => t.id)).Nodup)
    (hid : vt'.id = vt.id) (htok : vt'.token = vt.token) :
    (Face4Auth.replaceTokenById toks vt').find? (fun t => t.token == tok) = some vt' := by
  induction toks with
  | nil => simp at h
  | cons a rest ih =>
    rw [List.map_cons, List.nodup_cons] at hids
    obtain ⟨haid, hrest⟩ := hids
    unfold Face4Auth.replaceTokenById
    rw [List.map_cons]
    by_cases hpa : (a.token == tok) = true
    · simp only [List.find?_cons, hpa] at h
      have ha : a = vt := by injection h
      have hif : (if a.id == vt'.id then vt' else a) = vt' := by
        simp [ha, hid]
      rw [hif]
      have hp2 : (vt'.token == tok) = true := by
        rw [htok, ← ha]
        exact hpa
      simp only [List.find?_cons, hp2]
    · have hpa' : (a.token == tok) = false := by
        simpa using hpa
      simp only [List.find?_cons, hpa'] at h
      have hvt : vt ∈ rest := List.mem_of_find?_eq_some h
      have hvtid : vt.id ∈ rest.map (fun t => t.id) := List.mem_map_of_mem _ hvt
      have hne : (a.id == vt'.id) = false := by
        apply beq_eq_false_iff_ne.2
        intro he
        exact haid (by rw [he, hid]; exact hvtid)
      have hif : (if a.id == vt'.id then vt' else a) = a := by simp [hne]
      rw [hif]
      simp only [List.find?_cons, hpa']
      have := ih h hrest
      unfold Face4Auth.replaceTokenById at this
      exact this

/-- Claim C3: verify-email checks unknown token, already-used token and
expired token in that order, each check terminal; only past all three does
it verify the user and stamp verified_at; a consumed token is then rejected
as already used on every later attempt, and an unused expired token is
rejected. -/
theorem claim_C3_verify_email_order (db : Face4Auth.DB) (tok : String) (now : Int) :
    (Face4Auth.findToken db tok = none →
       Face4Auth.verify_email db tok now
         = (Face4Auth.VerifyResult.error 400 "Invalid verification token", db))
  ∧ (∀ vt t0, Face4Auth.findToken db tok = some vt → vt.verified_at = some t0 →
       Face4Auth.verify_email db tok now
         = (Face4Auth.VerifyResult.error 400 "Verification token has already been used", db))
  ∧ (∀ vt, Face4Auth.findToken db tok = some vt → vt.verified_at = none →
       vt.expires_at < now →
       Face4Auth.verify_email db tok now
         = (Face4Auth.VerifyResult.error 400 "Verification token has expired. Please request a new one.", db))
  ∧ (∀ vt user, Face4Auth.findToken db tok = some vt → vt.verified_at = none →
       ¬ vt.expires_at < now →
       db.users.find? (fun u => u.id == vt.user_id) = some user →
       Face4Auth.verify_email db tok now =
         (Face4Auth.VerifyResult.ok "Email verified successfully. You can now login." user.id,
          { db with
              users := Face4Auth.replaceUserById db.users
                { user with is_verified := true, updated_at := now }
              tokens := Face4Auth.replaceTokenById db.tokens
                { vt with verified_at := some now }
              events := db.events ++
                [{ user_id := some user.id, event_type := "email_verification",
                   success := true, failure_reason := none }] }))
  ∧ (∀ vt user, (db.tokens.map (fun t => t.id)).Nodup →
       Face4Auth.findToken db tok = some vt → vt.verified_at = none →
       ¬ vt.expires_at < now →
       db.users.find? (fun u => u.id == vt.user_id) = some user →
       ∀ now2, (Face4Auth.verify_email (Face4Auth.verify_email db tok now).2 tok now2).1
         = Face4Auth.VerifyResult.error 400 "Verification token has already been used") := by
  refine ⟨?_, ?_, ?_, ?_, ?_⟩
  · intro h
    unfold Face4Auth.verify_email
    rw [h]
  · intro vt t0 hf hv
    unfold Face4Auth.verify_email
    rw [hf]
    simp [hv]
  · intro vt hf hv hexp
    unfold Face4Auth.verify_email
    rw [hf]
    simp [hv, hexp]
  · intro vt user hf hv hexp hu
    unfold Face4Auth.verify_email
    rw [hf]
    simp [hv, hexp, hu]
  · intro vt user hids hf hv hexp hu now2
    have hf0 : db.tokens.find? (fun t => t.token == tok) = some vt := hf
    have hdb : (Face4Auth.verify_email db tok now).2 =
        { db with
            users := Face4Auth.replaceUserById db.users
              { user with is_verified := true, updated_at := now }
            tokens := Face4Auth.replaceTokenById db.tokens
              { vt with verified_at := some now }
            events := db.events ++
              [{ user_id := some user.id, event_type := "email_verification",
                 success := true, failure_reason := none }] } := by
      unfold Face4Auth.verify_email
      rw [hf]
      simp [hv, hexp, hu]
    rw [hdb]
    have hfind : Face4Auth.findToken
        { db with
            users := Face4Auth.replaceUserById db.users
              { user with is_verified := true, updated_at := now }
            tokens := Face4Auth.replaceTokenById db.tokens
              { vt with verified_at := some now }
            events := db.events ++
              [{ user_id := some user.id, event_type := "email_verification",
                 success := true, failure_reason := none }] } tok
        = some { vt with verified_at := some now } := by
      rw [Face4Auth.findToken]
      exact find?_replaceTokenById hf0 hids rfl rfl
    unfold Face4Auth.verify_email
    rw [hfind]
    simp

namespace Samples

/-- Unverified account for the verification scenarios. -/
def dave : Face4Auth.User :=
  { id := 4, email := "dave@example.com", password_hash := "h4",
    is_verified := false, is_active := true, failed_login_attempts := 0,
    locked_until := none, created_at := 0, updated_at := 0, last_login_at := none }

/-- Fresh unused token for dave expiring at time 100. -/
def tokenD : Face4Auth.VerificationToken :=
  { id := 21, user_id := 4, token := "tD", expires_at := 100,
    verified_at := none, created_at := 0 }

/-- Token for dave that was already consumed at time 5. -/
def tokenE : Face4Auth.VerificationToken :=
  { id := 22, user_id := 4, token := "tE", expires_at := 1,
    verified_at := some 5, created_at := 0 }

/-- Store for the verification scenarios. -/
def verifyDb : Face4Auth.DB :=
  { users := [dave], tokens := [tokenD, tokenE], events := [] }

end Samples

/-- Witness for claim C3: the five behaviours at concrete stores. -/
theorem claim_C3_witness :
    Face4Auth.verify_email Samples.verifyDb "zz" 50
      = (Face4Auth.VerifyResult.error 400 "Invalid verification token", Samples.verifyDb)
    ∧ Face4Auth.verify_email Samples.verifyDb "tE" 200
      = (Face4Auth.VerifyResult.error 400 "Verification token has already been used", Samples.verifyDb)
    ∧ Face4Auth.verify_email Samples.verifyDb "tD" 200
      = (Face4Auth.VerifyResult.error 400 "Verification token has expired. Please request a new one.", Samples.verifyDb)
    ∧ Face4Auth.verify_email Samples.verifyDb "tD" 50
      = (Face4Auth.VerifyResult.ok "Email verified successfully. You can now login." 4,
         { Samples.verifyDb with
             users := Face4Auth.replaceUserById Samples.verifyDb.users
               { Samples.dave with is_verified := true, updated_at := 50 }
             tokens := Face4Auth.replaceTokenById Samples.verifyDb.tokens
               { Samples.tokenD with verified_at := some 50 }
             events := Samples.verifyDb.events ++
               [{ user_id := some 4, event_type := "email_verification",
                  success := true, failure_reason := none }] })
    ∧ (Face4Auth.verify_email (Face4Auth.verify_email Samples.verifyDb "tD" 50).2 "tD" 60).1
      = Face4Auth.VerifyResult.error 400 "Verification token has already been used" := by
  refine ⟨(claim_C3_verify_email_order Samples.verifyDb "zz" 50).1 (by decide),
          (claim_C3_verify_email_order Samples.verifyDb "tE" 200).2.1
            Samples.tokenE 5 (by decide) (by decide),
          (claim_C3_verify_email_order Samples.verifyDb "tD" 200).2.2.1
            Samples.tokenD (by decide) (by decide) (by decide),
          (claim_C3_verify_email_order Samples.verifyDb "tD" 50).2.2.2.1
            Samples.tokenD Samples.dave (by decide) (by decide) (by decide) (by decide),
          (claim_C3_verify_email_order Samples.verifyDb "tD" 50).2.2.2.2
            Samples.tokenD Samples.dave (by decide) (by decide) (by decide) (by decide)
            (by decide) 60⟩

/-- On a log strictly ascending in created_at, the newest-first sort used by
the history query is exactly the reversed log. -/
theorem insertionSort_desc_of_strict_ascending (l : List Face4Conv.Message)
    (h : l.Pairwise (fun a b => a.created_at < b.created_at)) :
    List.insertionSort Face4Conv.msgDesc l = l.reverse := by
  haveI : IsTotal Face4Conv.Message Face4Conv.msgDesc :=
    ⟨fun a b => Int.le_total b.created_at a.created_at⟩
  haveI : IsTrans Face4Conv.Message Face4Conv.msgDesc :=
    ⟨fun a b c hab hbc => le_trans hbc hab⟩
  have hperm : List.Perm (List.insertionSort Face4Conv.msgDesc l) l.reverse :=
    (List.perm_insertionSort Face4Conv.msgDesc l).trans (List.reverse_perm l).symm
  have hs : List.Sorted Face4Conv.msgDesc (List.insertionSort Face4Conv.msgDesc l) :=
    List.sorted_insertionSort Face4Conv.msgDesc l
  have hmap : (l.map (fun m => m.created_at)).Nodup :=
    List.pairwise_map.2 (h.imp fun hab => ne_of_lt hab)
  have hmap2 : ((List.insertionSort Face4Conv.msgDesc l).map (fun m => m.created_at)).Nodup :=
    (((List.perm_insertionSort Face4Conv.msgDesc l).map (fun m => m.created_at)).nodup_iff).2 hmap
  have hne : (List.insertionSort Face4Conv.msgDesc l).Pairwise
      (fun a b => a.created_at ≠ b.created_at) := List.pairwise_map.1 hmap2
  have hs1 : List.Sorted (fun a b : Face4Conv.Message => b.created_at < a.created_at)
      (List.insertionSort Face4Conv.msgDesc l) :=
    (hs.and hne).imp fun hab => lt_of_le_of_ne hab.1 (Ne.symm hab.2)
  have hs2 : List.Sorted (fun a b : Face4Conv.Message => b.created_at < a.created_at)
      l.reverse := List.pairwise_reverse.2 h
  exact @List.eq_of_perm_of_sorted _
    (fun a b : Face4Conv.Message => b.created_at < a.created_at)
    ⟨fun a b h1 h2 => absurd (lt_trans h1 h2) (lt_irrefl _)⟩ _ _ hperm hs1 hs2

/-- Claim C5: when the conversation log (strictly ascending in created_at,
as an append-only log is) holds more than k messages, load_history with
limit k returns exactly the k most recent ones, the length-k suffix of the
log in ascending order, projected to role and content. -/
theorem claim_C5_load_history_suffix_window
    (msgs : List Face4Conv.Message) (cid : Nat) (uid : String) (k : Nat)
    (h : (Face4Conv.convFilter msgs cid uid).Pairwise (fun a b => a.created_at < b.created_at))
    (hk : k < (Face4Conv.convFilter msgs cid uid).length) :
    Face4Conv.load_history msgs cid uid k
      = ((Face4Conv.convFilter msgs cid uid).drop
          ((Face4Conv.convFilter msgs cid uid).length - k)).map (fun m => (m.role, m.content))
    ∧ (Face4Conv.load_history msgs cid uid k).length = k := by
  have hsort := insertionSort_desc_of_strict_ascending (Face4Conv.convFilter msgs cid uid) h
  have hmain : Face4Conv.load_history msgs cid uid k
      = ((Face4Conv.convFilter msgs cid uid).drop
          ((Face4Conv.convFilter msgs cid uid).length - k)).map (fun m => (m.role, m.content)) := by
    simp only [Face4Conv.load_history, hsort]
    rw [← List.rtake_eq_reverse_take_reverse, List.rtake]
  refine ⟨hmain, ?_⟩
  rw [hmain, List.length_map, List.length_drop]
  omega

namespace Samples

/-- Message builder for the history scenario. -/
def chatMsg (i : Nat) (r c : String) (t : Int) : Face4Conv.Message :=
  { id := i, user_id := "u1", conversation_id := 1, role := r, content := c, created_at := t }

/-- Conversation log with three messages in ascending time order. -/
def chatLog : List Face4Conv.Message :=
  [chatMsg 1 "user" "hi" 10, chatMsg 2 "assistant" "hello" 20, chatMsg 3 "user" "list my tasks" 30]

end Samples

/-- Witness for claim C5: limit 2 on a three-message conversation returns
the two most recent messages in ascending order. -/
theorem claim_C5_witness :
    (Face4Conv.convFilter Samples.chatLog 1 "u1").Pairwise
      (fun a b => a.created_at < b.created_at)
    ∧ 2 < (Face4Conv.convFilter Samples.chatLog 1 "u1").length
    ∧ Face4Conv.load_history Samples.chatLog 1 "u1" 2
      = [("assistant", "hello"), ("user", "list my tasks")] := by
  have h : (Face4Conv.convFilter Samples.chatLog 1 "u1").Pairwise
      (fun a b => a.created_at < b.created_at) := by
    simp [Face4Conv.convFilter, Samples.chatLog, Samples.chatMsg, List.pairwise_cons]
  have hk : 2 < (Face4Conv.convFilter Samples.chatLog 1 "u1").length := by decide
  have hmain := (claim_C5_load_history_suffix_window Samples.chatLog 1 "u1" 2 h hk).1
  refine ⟨h, hk, ?_⟩
  rw [hmain]
  decide
